import Mathlib

/-!
# Verification of the NIRF scoring engine

A shallow embedding of the scoring engine of `dashboard/app.py` from the
`nirf-automation` repository, together with proofs settling the claims of
its specification.

Modelling conventions:
* Python floats are modelled by `ℚ`.  The engine's arithmetic is plain
  field arithmetic with guard clauses; none of the claims under study
  concerns float rounding behaviour.
* An `InputRecord` holds the numeric values produced by `safe_float` on the
  corresponding dictionary entries (missing or unparseable entries become
  the default `0`, which is the structure-field default here), and the raw
  strings for the identity fields.
* The weights dictionary loaded from `weights.yaml` is modelled as an
  association list; Python's `weights[k]` (which raises `KeyError` on a
  missing key) becomes an `Except String` value, so the total-score
  computation is `Except`-valued exactly where the source can raise.
* The source rounds each category score to 2 decimals when building its
  output dictionaries; the claims under study are about the unrounded
  quantities and the pass-through identity fields, so the embedding keeps
  the unrounded values.
-/

namespace NIRF

/-- One institution's input record: the numeric fields are the values
`safe_float` extracts from the stored dictionary (default `0`), the six
`DAP_*` flags are booleans, and the identity fields are strings. -/
structure InputRecord where
  college_name : String := ""
  institution_type : String := ""
  F1 : ℚ := 0
  F2 : ℚ := 0
  seats_N : ℚ := 0
  phd_percent : ℚ := 0
  avg_experience_years : ℚ := 0
  EXLIP : ℚ := 0
  EXLIE : ℚ := 0
  EXLB : ℚ := 0
  SEC_pA_percentile : ℚ := 0
  SEC_pB_percentile : ℚ := 0
  SEC_pC_percentile : ℚ := 0
  SEC_winners_count : ℚ := 0
  PW : ℚ := 0
  PS : ℚ := 0
  PG : ℚ := 0
  PI : ℚ := 0
  CCW : ℚ := 0
  CCS : ℚ := 0
  CCG : ℚ := 0
  CCI : ℚ := 0
  PF_filed : ℚ := 0
  PG_granted : ℚ := 0
  PL_licensed_count : ℚ := 0
  EP_revenue : ℚ := 0
  UE_graduating_percent : ℚ := 0
  PE_index : ℚ := 0
  CES_N : ℚ := 0
  RD_other_states : ℚ := 0
  RD_other_countries : ℚ := 0
  WS_women_students_percent : ℚ := 0
  WS_women_faculty_percent : ℚ := 0
  WS_women_leadership_percent : ℚ := 0
  ESCS_disadvantaged_percent : ℚ := 0
  DAP_ramps : Bool := false
  DAP_lifts : Bool := false
  DAP_walking_aids : Bool := false
  DAP_toilets : Bool := false
  DAP_braille_labs : Bool := false
  DAP_av_aids : Bool := false
  PR_survey : ℚ := 0
  applications_A : ℚ := 0
  sanctioned_S : ℚ := 0
deriving DecidableEq

/-- `percentile(values, target)` from `dashboard/app.py`: `0.0` for an empty
population, otherwise the percentage of values `≤ target`.  The source sorts
the values before counting; the sort is kept here verbatim (it does not
change the count, see `percentile_eq`). -/
def percentile (values : List ℚ) (target : ℚ) : ℚ :=
  if values = [] then 0
  else
    let sorted_vals := values.mergeSort (fun a b => a ≤ b)
    ((sorted_vals.countP (fun v => v ≤ target) : ℚ) / (sorted_vals.length : ℚ)) * 100

/-- Counting over the sorted population equals counting over the population
itself: `percentile` rewritten without the (count-invariant) sort. -/
theorem percentile_eq (values : List ℚ) (target : ℚ) :
    percentile values target =
      if values = [] then 0
      else ((values.countP (fun v => v ≤ target) : ℚ) / (values.length : ℚ)) * 100 := by
  unfold percentile
  by_cases h : values = []
  · simp [h]
  · simp only [h, if_false]
    rw [List.Perm.countP_eq _ (List.mergeSort_perm values _), List.length_mergeSort]

/-! ## First pass: per-record derived ratios (app.py lines 92-153) -/

/-- Effective faculty strength `F_total = F1 + 0.3 * F2`. -/
def F_total (r : InputRecord) : ℚ := r.F1 + (3 / 10) * r.F2

/-- Composite publication score `P = 0.3*PW + 0.5*PS + 0.1*PG + 0.1*PI`. -/
def P_comp (r : InputRecord) : ℚ :=
  (3 / 10) * r.PW + (1 / 2) * r.PS + (1 / 10) * r.PG + (1 / 10) * r.PI

/-- Composite citation score `CC = 0.3*CCW + 0.5*CCS + 0.1*CCG + 0.1*CCI`. -/
def CC_comp (r : InputRecord) : ℚ :=
  (3 / 10) * r.CCW + (1 / 2) * r.CCS + (1 / 10) * r.CCG + (1 / 10) * r.CCI

/-- Library items per student (app.py lines 118-122): set only when
`seats_N > 0`, otherwise it stays `0.0`. -/
def EXLI_per_student (r : InputRecord) : ℚ :=
  if r.seats_N > 0 then r.EXLIP / r.seats_N + 2 * r.EXLIE / r.seats_N else 0

/-- Lab expenditure per student (app.py lines 119-122): the raw `EXLB` when
`seats_N > 0`, otherwise it stays `0.0`. -/
def EXLB_per_student (r : InputRecord) : ℚ :=
  if r.seats_N > 0 then r.EXLB else 0

/-- Application/seat ratio (app.py line 131):
`(A_apps / S_intake) if S_intake > 0 else 0.0`. -/
def SR_ratio (r : InputRecord) : ℚ :=
  if r.sanctioned_S > 0 then r.applications_A / r.sanctioned_S else 0

/-- Element appended to `P_list` (app.py line 133):
`P / (F_total if F_total > 0 else 1.0)`. -/
def P_over_F (r : InputRecord) : ℚ :=
  P_comp r / (if F_total r > 0 then F_total r else 1)

/-- Element appended to `CC_over_F_list` (app.py line 134): despite the
list's name, the source appends `CC / (P if P > 0 else 1.0)`, the citation
score normalised by the publication score. -/
def CC_over_P (r : InputRecord) : ℚ :=
  CC_comp r / (if P_comp r > 0 then P_comp r else 1)

/-- Element appended to `PF_over_F_list` (app.py line 135). -/
def PF_over_F (r : InputRecord) : ℚ :=
  r.PF_filed / (if F_total r > 0 then F_total r else 1)

/-- Element appended to `PG_over_F_list` (app.py line 136). -/
def PG_over_F (r : InputRecord) : ℚ :=
  r.PG_granted / (if F_total r > 0 then F_total r else 1)

/-- Element appended to `EP_over_F_list` (app.py line 137). -/
def EP_over_F (r : InputRecord) : ℚ :=
  r.EP_revenue / (if F_total r > 0 then F_total r else 1)

/-- Cohort vector of publication intensities (app.py `P_list`). -/
def P_list (records : List InputRecord) : List ℚ := records.map P_over_F

/-- Cohort vector appended at app.py line 134 (`CC_over_F_list`). -/
def CC_over_F_list (records : List InputRecord) : List ℚ := records.map CC_over_P

/-- Cohort vector of filed patents per faculty (app.py `PF_over_F_list`). -/
def PF_over_F_list (records : List InputRecord) : List ℚ := records.map PF_over_F

/-- Cohort vector of granted patents per faculty (app.py `PG_over_F_list`). -/
def PG_over_F_list (records : List InputRecord) : List ℚ := records.map PG_over_F

/-- Cohort vector of patent revenue per faculty (app.py `EP_over_F_list`). -/
def EP_over_F_list (records : List InputRecord) : List ℚ := records.map EP_over_F

/-- Cohort vector of library items per student (app.py `EXLI_per_student_list`). -/
def EXLI_per_student_list (records : List InputRecord) : List ℚ :=
  records.map EXLI_per_student

/-- Cohort vector of lab expenditure per student (app.py `EXLB_per_student_list`). -/
def EXLB_per_student_list (records : List InputRecord) : List ℚ :=
  records.map EXLB_per_student

/-- Cohort vector of placement indices (app.py `PE_index_list`). -/
def PE_index_list (records : List InputRecord) : List ℚ :=
  records.map (fun r => r.PE_index)

/-- Cohort vector of community-engagement scores (app.py `CES_N_list`). -/
def CES_N_list (records : List InputRecord) : List ℚ :=
  records.map (fun r => r.CES_N)

/-- Cohort vector of out-of-state counts (app.py `RD_other_states_list`). -/
def RD_other_states_list (records : List InputRecord) : List ℚ :=
  records.map (fun r => r.RD_other_states)

/-- Cohort vector of out-of-country counts (app.py `RD_other_countries_list`). -/
def RD_other_countries_list (records : List InputRecord) : List ℚ :=
  records.map (fun r => r.RD_other_countries)

/-- Cohort vector of application/seat ratios (app.py `PR_SR_ratio_list`). -/
def PR_SR_ratio_list (records : List InputRecord) : List ℚ := records.map SR_ratio

/-- Cohort anchor (app.py line 156):
`R_star = max(PR_SR_ratio_list) if PR_SR_ratio_list else 1.0`.
Python's `max` over a nonempty list is a left fold of binary `max`. -/
def R_star (records : List InputRecord) : ℚ :=
  match PR_SR_ratio_list records with
  | [] => 1
  | x :: xs => xs.foldl max x

/-! ## Second pass: category calculators (app.py lines 158-271) -/

/-- Institution type (app.py line 163):
`(r.get("institution_type") or "college").lower()`; an absent entry is
modelled by the empty string, which is falsy in Python. -/
def instType (r : InputRecord) : String :=
  (if r.institution_type = "" then "college" else r.institution_type).toLower

/-- Faculty-to-seat ratio (app.py line 167):
`(F_total / seats_N) if seats_N > 0 else 0.0`. -/
def F_over_N (r : InputRecord) : ℚ :=
  if r.seats_N > 0 then F_total r / r.seats_N else 0

/-- FSR sub-score (app.py lines 167-173): `20.0 * (15.0 * F_over_N)` for a
university, `30.0 * (20.0 * F_over_N)` otherwise, then zeroed when
`F_over_N < 1/50`. -/
def FSR (r : InputRecord) : ℚ :=
  let fon := F_over_N r
  let base := if instType r = "university" then 20 * (15 * fon) else 30 * (20 * fon)
  if fon < 1 / 50 then 0 else base

/-- FQ component (app.py line 177). -/
def FQ (r : InputRecord) : ℚ :=
  if r.phd_percent ≤ 95 then 15 * (r.phd_percent / 95) else 15

/-- Experience value `Ei` (app.py lines 179-184). -/
def Ei (r : InputRecord) : ℚ :=
  if r.avg_experience_years ≤ 45 then max (r.avg_experience_years - 30) 0 else 15

/-- FE component (app.py line 185). -/
def FE (r : InputRecord) : ℚ :=
  if Ei r ≤ 15 then 15 * (Ei r / 15) else 15

/-- `FQE = FQ + FE` (app.py line 186). -/
def FQE (r : InputRecord) : ℚ := FQ r + FE r

/-- Library component `LI` (app.py lines 191-198). -/
def LI (records : List InputRecord) (r : InputRecord) : ℚ :=
  let p_EXLI := percentile (EXLI_per_student_list records) (EXLI_per_student r)
  if instType r = "university" then 20 * p_EXLI / 100 else 15 * p_EXLI / 100

/-- Lab component `LB` (app.py lines 192-198). -/
def LB (records : List InputRecord) (r : InputRecord) : ℚ :=
  let p_EXLB := percentile (EXLB_per_student_list records) (EXLB_per_student r)
  if instType r = "university" then 20 * p_EXLB / 100 else 15 * p_EXLB / 100

/-- `LL = LI + LB` (app.py line 199). -/
def LL (records : List InputRecord) (r : InputRecord) : ℚ := LI records r + LB records r

/-- SEC sub-score (app.py lines 202-206), with the winners-count bypass of
the third component. -/
def SEC (r : InputRecord) : ℚ :=
  let pA := r.SEC_pA_percentile / 100
  let pB := r.SEC_pB_percentile / 100
  let pC_val := if r.SEC_winners_count ≥ 3 then 1 else r.SEC_pC_percentile / 100
  10 * (pA / 2 + pB / 4 + pC_val / 4)

/-- Teaching-Resources category total (app.py line 208). -/
def TLR (records : List InputRecord) (r : InputRecord) : ℚ :=
  FSR r + FQE r + LL records r + SEC r

/-- Publication sub-score `PU` (app.py lines 212-214). -/
def PU (records : List InputRecord) (r : InputRecord) : ℚ :=
  45 * (percentile (P_list records) (P_over_F r) / 100)

/-- Citation index (app.py line 221):
`(CC / (P_val if P_val > 0 else 1.0)) * (p_P / 100.0)` where `p_P` is the
percentile of `P_over_F` in `P_list`. -/
def base_citation_index (records : List InputRecord) (r : InputRecord) : ℚ :=
  CC_over_P r * (percentile (P_list records) (P_over_F r) / 100)

/-- Citation sub-score `CI` (app.py lines 222-223): the citation index is
percentile-ranked against `CC_over_F_list`. -/
def CI (records : List InputRecord) (r : InputRecord) : ℚ :=
  45 * (percentile (CC_over_F_list records) (base_citation_index records r) / 100)

/-- Filed-patent component (app.py line 229). -/
def PF_comp (records : List InputRecord) (r : InputRecord) : ℚ :=
  2 * (percentile (PF_over_F_list records) (PF_over_F r) / 100)

/-- Granted-patent component (app.py line 230). -/
def PG_comp (records : List InputRecord) (r : InputRecord) : ℚ :=
  4 * (percentile (PG_over_F_list records) (PG_over_F r) / 100)

/-- Licensing indicator `I_P` (app.py line 231). -/
def I_P (r : InputRecord) : ℚ :=
  if r.PG_granted ≥ 1 ∧ r.PL_licensed_count ≥ 1 then 1 else 0

/-- Licensing component (app.py line 232). -/
def PL_comp (records : List InputRecord) (r : InputRecord) : ℚ :=
  2 * I_P r + 2 * (percentile (EP_over_F_list records) (EP_over_F r) / 100)

/-- `IPR = PF_comp + PG_comp + PL_comp` (app.py line 233). -/
def IPR (records : List InputRecord) (r : InputRecord) : ℚ :=
  PF_comp records r + PG_comp records r + PL_comp records r

/-- Research category total (app.py line 235). -/
def RPII (records : List InputRecord) (r : InputRecord) : ℚ :=
  PU records r + CI records r + IPR records r

/-- Graduation-Outcomes category (app.py lines 238-243). -/
def GO (records : List InputRecord) (r : InputRecord) : ℚ :=
  let UE := 50 * (r.UE_graduating_percent / 80)
  let PE := 50 * (percentile (PE_index_list records) r.PE_index / 100)
  UE + PE

/-- Outreach-Inclusivity category (app.py lines 246-265). -/
def OI (records : List InputRecord) (r : InputRecord) : ℚ :=
  let CES_score := 25 * (percentile (CES_N_list records) r.CES_N / 100)
  let RD_states := 18 * (percentile (RD_other_states_list records) r.RD_other_states / 100)
  let RD_countries := 7 * (percentile (RD_other_countries_list records) r.RD_other_countries / 100)
  let RD_score := RD_states + RD_countries
  let WS := 8 * (r.WS_women_students_percent / 50) + 8 * (r.WS_women_faculty_percent / 20)
    + 4 * (r.WS_women_leadership_percent / 2)
  let ESCS := 20 * (r.ESCS_disadvantaged_percent / 50)
  let DAP := (if r.DAP_ramps then (2 : ℚ) else 0) + (if r.DAP_lifts then 2 else 0)
    + (if r.DAP_walking_aids then 2 else 0) + (if r.DAP_toilets then 3 / 2 else 0)
    + (if r.DAP_braille_labs then 1 else 0) + (if r.DAP_av_aids then 3 / 2 else 0)
  CES_score + RD_score + WS + ESCS + DAP

/-- Perception SR component (app.py line 270):
`50.0 * ((SR_ratio / R_star) if R_star > 0 else 0.0)`. -/
def SR (records : List InputRecord) (r : InputRecord) : ℚ :=
  50 * (if R_star records > 0 then SR_ratio r / R_star records else 0)

/-- Perception category (app.py line 271). -/
def PR (records : List InputRecord) (r : InputRecord) : ℚ :=
  r.PR_survey + SR records r

/-! ## Aggregation: weights and total score (app.py lines 274-312) -/

/-- The built-in default weights (app.py lines 275-281 and 288). -/
def defaultWeights : List (String × ℚ) :=
  [("TLR", 30), ("RP", 30), ("GO", 20), ("OI", 10), ("PR", 10)]

/-- Python dictionary subscript `weights[k]`: the value when the key is
present, a `KeyError` carrying the key otherwise. -/
def dictGet (w : List (String × ℚ)) (k : String) : Except String ℚ :=
  match w.lookup k with
  | some v => Except.ok v
  | none => Except.error k

/-- The research weight (app.py line 292):
`weights.get("RP", weights.get("RPII", 30.0))` — this single lookup, unlike
the four subscripts, tolerates missing keys. -/
def rpWeight (w : List (String × ℚ)) : ℚ :=
  (w.lookup "RP").getD ((w.lookup "RPII").getD 30)

/-- The `try/except` around loading `weights.yaml` (app.py lines 274-288):
any exception while reading or parsing the file is swallowed and the
built-in defaults are used wholesale.  A successfully parsed dictionary is
used as-is; missing keys are NOT filled in at this point. -/
def loadWeights (loaded : Except String (List (String × ℚ))) : List (String × ℚ) :=
  match loaded with
  | Except.ok w => w
  | Except.error _ => defaultWeights

/-- Total-score computation (app.py lines 290-296).  The subscripts
`weights["TLR"]`, `weights["GO"]`, `weights["OI"]`, `weights["PR"]` raise
`KeyError` on a missing key (they sit outside the `try` block), while the
research weight goes through `rpWeight`. -/
def totalScore (w : List (String × ℚ)) (tlr rpii go oi pr : ℚ) : Except String ℚ := do
  let wTLR ← dictGet w "TLR"
  let wGO ← dictGet w "GO"
  let wOI ← dictGet w "OI"
  let wPR ← dictGet w "PR"
  Except.ok ((tlr * wTLR + rpii * rpWeight w + go * wGO + oi * wOI + pr * wPR) / 100)

/-- One output row of the engine (app.py lines 298-310), with the category
scores kept unrounded (the source rounds to 2 decimals for display). -/
structure ScoreResult where
  college_name : String
  institution_type : String
  TLR : ℚ
  RP : ℚ
  GO : ℚ
  OI : ℚ
  PR : ℚ
  Total : ℚ
deriving DecidableEq

/-- Scoring of a single record within its cohort (the body of the second
loop of `compute_scores`, app.py lines 159-310). -/
def scoreRecord (w : List (String × ℚ)) (records : List InputRecord)
    (r : InputRecord) : Except String ScoreResult := do
  let total ← totalScore w (TLR records r) (RPII records r) (GO records r)
    (OI records r) (PR records r)
  Except.ok
    { college_name := r.college_name
      institution_type := instType r
      TLR := TLR records r
      RP := RPII records r
      GO := GO records r
      OI := OI records r
      PR := PR records r
      Total := total }

/-- `compute_scores(records)` (app.py lines 74-312): the two-phase batch
computation, one output row per input record, for a given weights
dictionary.  The source reloads the same weights file on every iteration;
here the loaded dictionary `w` is passed once. -/
def computeScores (w : List (String × ℚ)) (records : List InputRecord) :
    Except String (List ScoreResult) :=
  records.mapM (scoreRecord w records)

/-! ## Helper lemmas -/

/-- `percentile` on a nonempty population, with the empty-population branch
discharged. -/
theorem percentile_cons (x : ℚ) (xs : List ℚ) (t : ℚ) :
    percentile (x :: xs) t =
      (((x :: xs).countP (fun v => v ≤ t) : ℚ) / ((x :: xs).length : ℚ)) * 100 := by
  rw [percentile_eq]
  simp

/-- A value ranked against the singleton population holding exactly itself
sits at the 100th percentile. -/
theorem percentile_singleton (x : ℚ) : percentile [x] x = 100 := by
  norm_num [percentile_cons, List.countP_cons, List.countP_nil]

/-- `instType` written through the character-list form of `String.map`,
so it evaluates on concrete records. -/
theorem instType_eq (r : InputRecord) :
    instType r = String.mk
      ((if r.institution_type = "" then "college" else r.institution_type).data.map
        Char.toLower) := by
  unfold instType
  simp [String.toLower, String.map_eq]

/-- `totalScore` succeeds whenever the four subscripted keys are present. -/
theorem totalScore_ok (w : List (String × ℚ)) (a g o p tlr rpii go oi pr : ℚ)
    (hT : w.lookup "TLR" = some a) (hG : w.lookup "GO" = some g)
    (hO : w.lookup "OI" = some o) (hP : w.lookup "PR" = some p) :
    totalScore w tlr rpii go oi pr =
      Except.ok ((tlr * a + rpii * rpWeight w + go * g + oi * o + pr * p) / 100) := by
  unfold totalScore dictGet
  rw [hT, hG, hO, hP]
  rfl

/-- `mapM` over `Except` collapses to `map` when every element succeeds. -/
theorem mapM_ok_of_forall {α β : Type} (g : α → Except String β) (f : α → β)
    (l : List α) (h : ∀ a ∈ l, g a = Except.ok (f a)) :
    l.mapM g = Except.ok (l.map f) := by
  induction l with
  | nil => rfl
  | cons x xs ih =>
      rw [List.mapM_cons, h x (List.mem_cons_self x xs),
        ih (fun a ha => h a (List.mem_cons_of_mem x ha))]
      rfl

/-- A left fold of `max` over a list of zeros, started at zero, is zero. -/
theorem foldl_max_zeros (l : List ℚ) (h : ∀ x ∈ l, x = 0) :
    l.foldl max 0 = 0 := by
  induction l with
  | nil => rfl
  | cons x xs ih =>
      rw [List.foldl_cons, h x (List.mem_cons_self x xs),
        max_self]
      exact ih (fun a ha => h a (List.mem_cons_of_mem x ha))

/-- The floor rule inside `FSR`: a faculty-to-seat ratio below `1/50` zeroes
the sub-score. -/
theorem FSR_of_lt_floor (r : InputRecord) (h : F_over_N r < 1 / 50) :
    FSR r = 0 := by
  unfold FSR
  exact if_pos h

/-- When the seat count is not positive, the faculty-to-seat ratio is the
guarded `0`. -/
theorem F_over_N_of_seats_nonpos (r : InputRecord) (h : ¬ r.seats_N > 0) :
    F_over_N r = 0 := by
  unfold F_over_N
  simp [h]

/-! ## Concrete records used by counterexamples and witnesses -/

/-- The all-default record: every numeric field `0`, every flag `false`. -/
def rZero : InputRecord := {}

/-- A record with zero seats but nonzero library expenditure and
applications. -/
def rLib : InputRecord := { seats_N := 0, EXLIP := 5, applications_A := 7, sanctioned_S := 0 }

/-! ## Claim C1 -/

/-- Claim C1 as stated is false: for the library-items-per-student ratio the
source does not substitute `1.0` for a non-positive denominator — it leaves
the whole ratio at `0`.  At the concrete record `rLib` (seat count `0`,
physical library expenditure `5`), the claim predicts the numerator's raw
value `5/1 + 2*0/1 = 5`, but the engine computes `0`. -/
theorem c1_counterexample :
    rLib.seats_N ≤ 0 ∧ rLib.EXLIP / 1 + 2 * rLib.EXLIE / 1 = 5 ∧
    EXLI_per_student rLib = 0 ∧ (0 : ℚ) ≠ 5 := by
  refine ⟨le_refl 0, by norm_num [rLib], ?_, by norm_num⟩
  unfold EXLI_per_student
  norm_num [rLib]

/-- Claim C1 (amended): the substitute-1.0-for-the-denominator policy holds
for the five ratios whose denominator is the effective faculty or the
composite publication score (publication/faculty, citation/publication,
patents-filed/faculty, patents-granted/faculty, patent-revenue/faculty), so
there the ratio degenerates to the raw numerator; the
library-items-per-student value and the application/seat ratio instead fall
back to `0` when their denominator (seats, resp. sanctioned intake) is not
positive. -/
theorem c1_division_guards (r : InputRecord) :
    (F_total r ≤ 0 → P_over_F r = P_comp r) ∧
    (P_comp r ≤ 0 → CC_over_P r = CC_comp r) ∧
    (F_total r ≤ 0 → PF_over_F r = r.PF_filed) ∧
    (F_total r ≤ 0 → PG_over_F r = r.PG_granted) ∧
    (F_total r ≤ 0 → EP_over_F r = r.EP_revenue) ∧
    (r.seats_N ≤ 0 → EXLI_per_student r = 0) ∧
    (r.sanctioned_S ≤ 0 → SR_ratio r = 0) := by
  refine ⟨fun h => ?_, fun h => ?_, fun h => ?_, fun h => ?_, fun h => ?_,
    fun h => ?_, fun h => ?_⟩
  · unfold P_over_F
    rw [if_neg (not_lt.mpr h), div_one]
  · unfold CC_over_P
    rw [if_neg (not_lt.mpr h), div_one]
  · unfold PF_over_F
    rw [if_neg (not_lt.mpr h), div_one]
  · unfold PG_over_F
    rw [if_neg (not_lt.mpr h), div_one]
  · unfold EP_over_F
    rw [if_neg (not_lt.mpr h), div_one]
  · unfold EXLI_per_student
    rw [if_neg (not_lt.mpr h)]
  · unfold SR_ratio
    rw [if_neg (not_lt.mpr h)]

/-- Witness for `c1_division_guards` at the all-zero record, where every
denominator is non-positive. -/
theorem c1_division_guards_witness :
    P_over_F rZero = P_comp rZero ∧ CC_over_P rZero = CC_comp rZero ∧
    PF_over_F rZero = rZero.PF_filed ∧ PG_over_F rZero = rZero.PG_granted ∧
    EP_over_F rZero = rZero.EP_revenue ∧ EXLI_per_student rZero = 0 ∧
    SR_ratio rZero = 0 := by
  have h := c1_division_guards rZero
  have h0 : F_total rZero ≤ 0 := by norm_num [F_total, rZero]
  have h1 : P_comp rZero ≤ 0 := by norm_num [P_comp, rZero]
  have h2 : rZero.seats_N ≤ 0 := by norm_num [rZero]
  have h3 : rZero.sanctioned_S ≤ 0 := by norm_num [rZero]
  exact ⟨h.1 h0, h.2.1 h1, h.2.2.1 h0, h.2.2.2.1 h0, h.2.2.2.2.1 h0,
    h.2.2.2.2.2.1 h2, h.2.2.2.2.2.2 h3⟩

/-! ## Claim C2 -/

/-- A parsed weights dictionary from which the key `TLR` is missing. -/
def wMissingTLR : List (String × ℚ) := [("RP", 30), ("GO", 20), ("OI", 10), ("PR", 10)]

/-- A parsed weights dictionary from which only the research keys `RP` and
`RPII` are missing. -/
def wNoRP : List (String × ℚ) := [("TLR", 30), ("GO", 20), ("OI", 10), ("PR", 10)]

/-- Claim C2 as stated is false: a weights dictionary missing the key `TLR`
does not make the total-score computation fall back to the default for that
key — the subscript `weights["TLR"]` sits outside the `try` block and its
`KeyError` propagates, so the computation fails. -/
theorem c2_counterexample :
    wMissingTLR.lookup "TLR" = none ∧
    totalScore wMissingTLR 1 1 1 1 1 = Except.error "TLR" := by
  exact ⟨rfl, rfl⟩

/-- Claim C2 (amended): only the research weight tolerates a missing key —
with `RP` and `RPII` both absent the total-score computation still succeeds
and uses the default `30` for the research weight alone, keeping the
supplied values of the present keys `TLR`, `GO`, `OI`, `PR`; a weights
dictionary missing one of those four keys instead propagates a `KeyError`
(the loader's `try/except` swallows only load/parse failures, replacing the
whole dictionary by the defaults). -/
theorem c2_rp_fallback (w : List (String × ℚ)) (a g o p tlr rpii go oi pr : ℚ)
    (hT : w.lookup "TLR" = some a) (hG : w.lookup "GO" = some g)
    (hO : w.lookup "OI" = some o) (hP : w.lookup "PR" = some p)
    (hRP : w.lookup "RP" = none) (hRPII : w.lookup "RPII" = none) :
    totalScore w tlr rpii go oi pr =
      Except.ok ((tlr * a + rpii * 30 + go * g + oi * o + pr * p) / 100) := by
  rw [totalScore_ok w a g o p tlr rpii go oi pr hT hG hO hP]
  unfold rpWeight
  rw [hRP, hRPII]
  rfl

/-- Witness for `c2_rp_fallback` on a concrete dictionary without `RP` and
`RPII`. -/
theorem c2_rp_fallback_witness :
    totalScore wNoRP 1 2 3 4 5 =
      Except.ok ((1 * 30 + 2 * 30 + 3 * 20 + 4 * 10 + 5 * 10) / 100) :=
  c2_rp_fallback wNoRP 30 20 10 10 1 2 3 4 5 rfl rfl rfl rfl rfl rfl

/-! ## Claim C3 -/

/-- A university record with faculty-to-seat ratio `1/10`. -/
def rUniv : InputRecord := { institution_type := "university", F1 := 1, seats_N := 10 }

/-- A college record identical to `rUniv` except for the institution type. -/
def rColl : InputRecord := { institution_type := "college", F1 := 1, seats_N := 10 }

/-- Claim C3 as stated is false: at the same faculty-to-seat ratio `1/10`
(above the `1/50` floor), the university record scores `20*(15*(1/10)) = 30`
while the otherwise-identical college record scores `30*(20*(1/10)) = 60` —
the university's FSR is strictly smaller, not strictly greater. -/
theorem c3_counterexample :
    instType rUniv = "university" ∧ instType rColl ≠ "university" ∧
    F_over_N rUniv = F_over_N rColl ∧ (1 : ℚ) / 50 ≤ F_over_N rUniv ∧
    FSR rUniv = 30 ∧ FSR rColl = 60 ∧ ¬ FSR rColl < FSR rUniv := by
  have hU : instType rUniv = "university" := by
    rw [instType_eq]
    decide
  have hC : instType rColl = "college" := by
    rw [instType_eq]
    decide
  have hNU : F_over_N rUniv = 1 / 10 := by norm_num [F_over_N, F_total, rUniv]
  have hNC : F_over_N rColl = 1 / 10 := by norm_num [F_over_N, F_total, rColl]
  have hFU : FSR rUniv = 30 := by
    simp only [FSR, hU, hNU]
    norm_num
  have hFC : FSR rColl = 60 := by
    simp only [FSR, hC, hNC]
    rw [if_neg (by decide : ¬("college" : String) = "university")]
    norm_num
  refine ⟨hU, by rw [hC]; decide, by rw [hNU, hNC], by rw [hNU]; norm_num, hFU, hFC, ?_⟩
  rw [hFU, hFC]
  norm_num

/-- Claim C3 (amended): the multipliers are the other way round — for any
fixed faculty-to-seat ratio at or above the `1/50` floor, a record of
non-university type receives a strictly greater FSR sub-score
(`30*20 = 600` per ratio unit) than an otherwise-identical record of
university type (`20*15 = 300` per ratio unit). -/
theorem c3_nonuniversity_steeper (ru rc : InputRecord)
    (hu : instType ru = "university") (hc : instType rc ≠ "university")
    (heq : F_over_N ru = F_over_N rc) (hfl : 1 / 50 ≤ F_over_N ru) :
    FSR ru < FSR rc := by
  have hpos : 0 < F_over_N ru := lt_of_lt_of_le (by norm_num) hfl
  simp only [FSR, hu, if_true]
  rw [if_neg hc, if_neg (not_lt.mpr hfl), if_neg (not_lt.mpr (heq ▸ hfl)), ← heq]
  nlinarith [hpos]

/-- Witness for `c3_nonuniversity_steeper` at the concrete pair
`rUniv`/`rColl`. -/
theorem c3_nonuniversity_steeper_witness : FSR rUniv < FSR rColl :=
  c3_nonuniversity_steeper rUniv rColl
    (by rw [instType_eq]; decide)
    (by rw [instType_eq]; decide)
    (by norm_num [F_over_N, F_total, rUniv, rColl])
    (by norm_num [F_over_N, F_total, rUniv])

/-! ## Claim C4 -/

/-- First cohort member for the citation counterexample: publication
intensity `1`, citation intensity `1`. -/
def rA : InputRecord := { F1 := 1, PS := 2, CCS := 2 }

/-- Second cohort member for the citation counterexample: publication
intensity `2`, citation intensity `9/10`. -/
def rB : InputRecord := { F1 := 1, PS := 4, CCS := 18 / 5 }

/-- The citation sub-score as claim C4 states it: the per-institution
citation index percentile-ranked against the cohort's vector of these same
citation indices (one per institution), scaled to the fixed maximum 45. -/
def CI_claimed (records : List InputRecord) (r : InputRecord) : ℚ :=
  45 * (percentile (records.map (base_citation_index records))
    (base_citation_index records r) / 100)

/-- Claim C4 as stated is false: in the two-record cohort `[rA, rB]` the
engine ranks `rA`'s citation index `1/2` against the vector of raw citation
intensities `[1, 9/10]` (percentile `0`, sub-score `0`), whereas ranking it
against the vector of citation indices `[1/2, 9/10]`, as the claim says,
gives percentile `50` and sub-score `45/2`. -/
theorem c4_counterexample :
    CI [rA, rB] rA = 0 ∧ CI_claimed [rA, rB] rA = 45 / 2 ∧ (0 : ℚ) ≠ 45 / 2 := by
  refine ⟨?_, ?_, by norm_num⟩
  · norm_num [CI, CC_over_F_list, base_citation_index, CC_over_P, P_over_F, P_list,
      P_comp, CC_comp, F_total, rA, rB, percentile_cons, List.countP_cons, List.countP_nil]
  · norm_num [CI_claimed, base_citation_index, CC_over_P, P_over_F, P_list,
      P_comp, CC_comp, F_total, rA, rB, percentile_cons, List.countP_cons, List.countP_nil]

/-- Claim C4 (amended): the citation index of an institution is
`(citation score / publication score) × (publication percentile / 100)` as
claimed, but it is percentile-ranked against the cohort's vector of plain
citation intensities `citation score / publication score` (the list built at
line 134), not against the vector of citation indices; the result is scaled
to the fixed maximum 45. -/
theorem c4_citation_ranked_against_intensities (records : List InputRecord)
    (r : InputRecord) :
    CI records r = 45 * (percentile (records.map CC_over_P)
      (CC_over_P r * (percentile (records.map P_over_F) (P_over_F r) / 100)) / 100) :=
  rfl

/-! ## Claim C5 -/

/-- Claim C5: a record whose effective-faculty/seats ratio is below `1/50`
has Teaching-Resources FSR component exactly `0`.  `FSR` takes no cohort
argument, so the result is independent of all other input fields appearing
elsewhere and of the rest of the cohort. -/
theorem c5_floor_rule (r : InputRecord) (h : F_over_N r < 1 / 50) : FSR r = 0 :=
  FSR_of_lt_floor r h

/-- Witness for `c5_floor_rule` at the all-zero record (ratio `0 < 1/50`). -/
theorem c5_floor_rule_witness : FSR rZero = 0 :=
  c5_floor_rule rZero (by norm_num [F_over_N, rZero])

/-! ## Claim C6 -/

/-- Claim C6: in a cohort consisting of exactly one record, every
cohort-percentile-ranked component of that record's scores — library, lab,
publication, citation, patents filed, patents granted, patent revenue,
placement index, community engagement, out-of-state, out-of-country —
evaluates to the 100th percentile. -/
theorem c6_singleton_cohort (r : InputRecord) :
    percentile (EXLI_per_student_list [r]) (EXLI_per_student r) = 100 ∧
    percentile (EXLB_per_student_list [r]) (EXLB_per_student r) = 100 ∧
    percentile (P_list [r]) (P_over_F r) = 100 ∧
    percentile (CC_over_F_list [r]) (base_citation_index [r] r) = 100 ∧
    percentile (PF_over_F_list [r]) (PF_over_F r) = 100 ∧
    percentile (PG_over_F_list [r]) (PG_over_F r) = 100 ∧
    percentile (EP_over_F_list [r]) (EP_over_F r) = 100 ∧
    percentile (PE_index_list [r]) r.PE_index = 100 ∧
    percentile (CES_N_list [r]) r.CES_N = 100 ∧
    percentile (RD_other_states_list [r]) r.RD_other_states = 100 ∧
    percentile (RD_other_countries_list [r]) r.RD_other_countries = 100 := by
  have hP : percentile (P_list [r]) (P_over_F r) = 100 := by
    simp only [P_list, List.map_cons, List.map_nil]
    exact percentile_singleton _
  have hCI : percentile (CC_over_F_list [r]) (base_citation_index [r] r) = 100 := by
    have hbase : base_citation_index [r] r = CC_over_P r := by
      unfold base_citation_index
      rw [hP]
      norm_num
    simp only [CC_over_F_list, List.map_cons, List.map_nil, hbase]
    exact percentile_singleton _
  refine ⟨?_, ?_, hP, hCI, ?_, ?_, ?_, ?_, ?_, ?_, ?_⟩
  · simp only [EXLI_per_student_list, List.map_cons, List.map_nil]
    exact percentile_singleton _
  · simp only [EXLB_per_student_list, List.map_cons, List.map_nil]
    exact percentile_singleton _
  · simp only [PF_over_F_list, List.map_cons, List.map_nil]
    exact percentile_singleton _
  · simp only [PG_over_F_list, List.map_cons, List.map_nil]
    exact percentile_singleton _
  · simp only [EP_over_F_list, List.map_cons, List.map_nil]
    exact percentile_singleton _
  · simp only [PE_index_list, List.map_cons, List.map_nil]
    exact percentile_singleton _
  · simp only [CES_N_list, List.map_cons, List.map_nil]
    exact percentile_singleton _
  · simp only [RD_other_states_list, List.map_cons, List.map_nil]
    exact percentile_singleton _
  · simp only [RD_other_countries_list, List.map_cons, List.map_nil]
    exact percentile_singleton _

/-! ## Claim C7 -/

/-- Claim C7: for a fixed population, the percentile rank is monotone in the
target — `target1 < target2` gives
`percentile pop target1 ≤ percentile pop target2`. -/
theorem c7_percentile_monotone (pop : List ℚ) (t1 t2 : ℚ) (h : t1 < t2) :
    percentile pop t1 ≤ percentile pop t2 := by
  rw [percentile_eq, percentile_eq]
  by_cases hp : pop = []
  · simp [hp]
  · simp only [hp, if_false]
    have hc : pop.countP (fun v => v ≤ t1) ≤ pop.countP (fun v => v ≤ t2) :=
      List.countP_mono_left (fun a _ ha => by
        simp only [decide_eq_true_eq] at ha ⊢
        exact le_trans ha (le_of_lt h))
    have hcq : ((pop.countP (fun v => v ≤ t1) : ℕ) : ℚ) ≤
        ((pop.countP (fun v => v ≤ t2) : ℕ) : ℚ) := by exact_mod_cast hc
    have hl : (0 : ℚ) < (pop.length : ℚ) := by
      exact_mod_cast List.length_pos.mpr hp
    have hd : ((pop.countP (fun v => v ≤ t1) : ℕ) : ℚ) / (pop.length : ℚ) ≤
        ((pop.countP (fun v => v ≤ t2) : ℕ) : ℚ) / (pop.length : ℚ) :=
      (div_le_div_iff_of_pos_right hl).mpr hcq
    exact mul_le_mul_of_nonneg_right hd (by norm_num)

/-- Witness for `c7_percentile_monotone` on a concrete population. -/
theorem c7_percentile_monotone_witness :
    (1 : ℚ) < 2 ∧ percentile [5, 3] 1 ≤ percentile [5, 3] 2 :=
  ⟨by norm_num, c7_percentile_monotone [5, 3] 1 2 (by norm_num)⟩

/-! ## Claim C8 -/

/-- Claim C8: a record with seat count `0` and sanctioned intake `0` gets a
faculty-ratio sub-score of exactly `0` and an application/seat ratio of
exactly `0`; both divisions are guarded (`seats_N > 0`, `S_intake > 0`), so
no division is ever performed on these inputs. -/
theorem c8_zero_seats_guard (r : InputRecord) (h1 : r.seats_N = 0)
    (h2 : r.sanctioned_S = 0) : FSR r = 0 ∧ SR_ratio r = 0 := by
  constructor
  · apply FSR_of_lt_floor
    rw [F_over_N_of_seats_nonpos r (by rw [h1]; norm_num)]
    norm_num
  · unfold SR_ratio
    rw [h2]
    norm_num

/-- Witness for `c8_zero_seats_guard` at the all-zero record. -/
theorem c8_zero_seats_guard_witness : FSR rZero = 0 ∧ SR_ratio rZero = 0 :=
  c8_zero_seats_guard rZero rfl rfl

/-! ## Claim C9 -/

/-- The output row `scoreRecord` produces when the four subscripted weight
keys resolve to `a`, `g`, `o`, `p` (proof-side abbreviation, see
`scoreRecord_ok`). -/
def scoredResult (w : List (String × ℚ)) (a g o p : ℚ) (records : List InputRecord)
    (r : InputRecord) : ScoreResult :=
  { college_name := r.college_name
    institution_type := instType r
    TLR := TLR records r
    RP := RPII records r
    GO := GO records r
    OI := OI records r
    PR := PR records r
    Total := (TLR records r * a + RPII records r * rpWeight w + GO records r * g
      + OI records r * o + PR records r * p) / 100 }

/-- `scoreRecord` succeeds on every record when the four subscripted weight
keys are present. -/
theorem scoreRecord_ok (w : List (String × ℚ)) (a g o p : ℚ)
    (records : List InputRecord) (r : InputRecord)
    (hT : w.lookup "TLR" = some a) (hG : w.lookup "GO" = some g)
    (hO : w.lookup "OI" = some o) (hP : w.lookup "PR" = some p) :
    scoreRecord w records r = Except.ok (scoredResult w a g o p records r) := by
  unfold scoreRecord
  rw [totalScore_ok w a g o p _ _ _ _ _ hT hG hO hP]
  rfl

/-- Two concrete records with distinct college names. -/
def cX : InputRecord := { college_name := "X" }

/-- Second concrete record for the cardinality witness. -/
def cY : InputRecord := { college_name := "Y", F1 := 2, seats_N := 5 }

/-- Claim C9: for a cohort with pairwise-distinct college names (and a
weights dictionary carrying the four subscripted keys, as the default one
does), the engine returns exactly one `ScoreResult` per input record — same
batch size, and positionally identical `college_name` pass-through. -/
theorem c9_cardinality (w : List (String × ℚ)) (a g o p : ℚ)
    (records : List InputRecord)
    (hT : w.lookup "TLR" = some a) (hG : w.lookup "GO" = some g)
    (hO : w.lookup "OI" = some o) (hP : w.lookup "PR" = some p)
    (_hdist : records.Pairwise (fun r s => r.college_name ≠ s.college_name)) :
    ∃ results : List ScoreResult,
      computeScores w records = Except.ok results ∧
      results.length = records.length ∧
      results.map ScoreResult.college_name = records.map InputRecord.college_name := by
  refine ⟨records.map (scoredResult w a g o p records), ?_, ?_, ?_⟩
  · unfold computeScores
    exact mapM_ok_of_forall _ _ _
      (fun r _ => scoreRecord_ok w a g o p records r hT hG hO hP)
  · rw [List.length_map]
  · rw [List.map_map]
    rfl

/-- Witness for `c9_cardinality`: the two-record cohort `[cX, cY]` under the
default weights. -/
theorem c9_cardinality_witness :
    ∃ results : List ScoreResult,
      computeScores defaultWeights [cX, cY] = Except.ok results ∧
      results.length = [cX, cY].length ∧
      results.map ScoreResult.college_name = [cX, cY].map InputRecord.college_name :=
  c9_cardinality defaultWeights 30 20 10 10 [cX, cY] rfl rfl rfl rfl
    (by simp [cX, cY])

/-! ## Claim C10 -/

/-- Claim C10: in a non-empty cohort where every application/seat ratio is
`0`, the cohort anchor is the maximum `0` (not the empty-cohort fallback
`1.0`), and the guarded Perception SR component of every record is exactly
`0`. -/
theorem c10_zero_anchor (records : List InputRecord) (hne : records ≠ [])
    (h : ∀ r ∈ records, SR_ratio r = 0) :
    R_star records = 0 ∧ ∀ r ∈ records, SR records r = 0 := by
  have hR : R_star records = 0 := by
    obtain ⟨x, xs, rfl⟩ := List.exists_cons_of_ne_nil hne
    unfold R_star PR_SR_ratio_list
    simp only [List.map_cons]
    rw [h x (List.mem_cons_self x xs)]
    exact foldl_max_zeros _ (fun v hv => by
      obtain ⟨s, hs, hsv⟩ := List.mem_map.mp hv
      rw [← hsv]
      exact h s (List.mem_cons_of_mem x hs))
  refine ⟨hR, fun r _ => ?_⟩
  unfold SR
  rw [hR]
  norm_num

/-- Witness for `c10_zero_anchor`: the singleton cohort of the all-zero
record. -/
theorem c10_zero_anchor_witness :
    R_star [rZero] = 0 ∧ ∀ r ∈ [rZero], SR [rZero] r = 0 :=
  c10_zero_anchor [rZero] (by simp)
    (by
      intro r hr
      rw [List.mem_singleton.mp hr]
      norm_num [SR_ratio, rZero])

end NIRF
